import Mathlib

/-!
Verification development for the Hemis budget RPC surface (the budget RPC
translation unit: checkBudgetInputs, parseVote, getnextsuperblock,
getbudgetinfo, gmbudgetrawvote, submitbudget, GetFinalizedBudgetStatus and
their collaborators).

Machine integers (int, int64_t, CAmount) are modelled as Int; the C operator
percent on int is truncated remainder, modelled by Int.tmod. uint256 values
are modelled as Nat; CScript payee scripts as byte lists. Functions whose
bodies live outside this translation unit (SanitizeString, validateURL,
signature checking, the budget manager's containers) are modelled from the
specification and marked as such in their doc comments.
-/

namespace HemisBudget

/-- CAmount is int64_t in the source; modelled as Int. -/
abbrev CAmount := Int

/-- One coin in minor units (COIN = 10^8). -/
def COIN : CAmount := 100000000

/-- A transaction outpoint (uint256 hash, output index); identifies a
gamemaster by its collateral, as in CTxIn(hashGmTx, nGmTxIndex).prevout. -/
structure COutPoint where
  hash : Nat
  n : Int
deriving DecidableEq, Repr

/-- CBudgetVote::VoteDirection from the headers included by the source. -/
inductive VoteDirection where
  | VOTE_ABSTAIN
  | VOTE_YES
  | VOTE_NO
deriving DecidableEq, Repr

/-- Hex character for a nibble, used to render uint256 values. -/
def hexChar (n : Nat) : Char :=
  if n < 10 then Char.ofNat (48 + n) else Char.ofNat (87 + n)

/-- uint256::ToString renders the 256-bit value as 64 hex characters. -/
def uint256ToString (n : Nat) : String :=
  String.mk ((List.range 64).map fun i => hexChar (n / 16 ^ (63 - i) % 16))

/-- A budget-proposal vote, CBudgetVote: (gamemaster outpoint, proposal
hash, direction, time, signature). -/
structure CBudgetVote where
  vin : COutPoint
  nProposalHash : Nat
  nVote : VoteDirection
  nTime : Int
  vchSig : List Nat
deriving DecidableEq, Repr

/-- Modelled from the spec: a Proposal carries name, URL, payee script,
monthly amount, start height, fee-transaction id and its collected votes
(one slot per validator); its content hash, cached validity flag and
invalidity reason are the values the source reads through GetHash(),
IsValid() and IsInvalidReason(). -/
structure CBudgetProposal where
  strProposalName : String
  strURL : String
  nBlockStart : Int
  nBlockEnd : Int
  address : List Nat
  nAmount : CAmount
  nFeeTXHash : Nat
  nHash : Nat
  fValid : Bool
  strInvalid : String
  mapVotes : List (COutPoint × CBudgetVote)
deriving DecidableEq, Repr

/-- One scheduled payment of a finalized budget, CTxBudgetPayment:
(proposal hash, payee script, amount). -/
structure CTxBudgetPayment where
  nProposalHash : Nat
  payee : List Nat
  nAmount : CAmount
deriving DecidableEq, Repr

/-- A finalized-budget vote, CFinalizedBudgetVote. -/
structure CFinalizedBudgetVote where
  vin : COutPoint
  nBudgetHash : Nat
  nTime : Int
  vchSig : List Nat
deriving DecidableEq, Repr

/-- Modelled from the spec: a FinalizedBudget is (name, start height,
ordered list of payments - one entry per block of its cycle window -,
fee-transaction id) plus its collected votes. -/
structure CFinalizedBudget where
  strBudgetName : String
  nBlockStart : Int
  vecBudgetPayments : List CTxBudgetPayment
  nFeeTXHash : Nat
  mapVotes : List (COutPoint × CFinalizedBudgetVote)
deriving DecidableEq, Repr

/-- Modelled from the spec: g_budgetman owns the proposal registry and the
finalized-budget registry. -/
structure CBudgetManager where
  mapProposals : List CBudgetProposal
  mapFinalizedBudgets : List CFinalizedBudget
deriving DecidableEq, Repr

/-- Modelled from the spec: GetBlockStart of a finalized budget. -/
def CFinalizedBudget.GetBlockStart (fb : CFinalizedBudget) : Int :=
  fb.nBlockStart

/-- Modelled from the spec: a finalized budget schedules one payment per
block of the half-open window starting at its start height, so its last
scheduled block (GetBlockEnd) is start + number of payments - 1. -/
def CFinalizedBudget.GetBlockEnd (fb : CFinalizedBudget) : Int :=
  fb.nBlockStart + fb.vecBudgetPayments.length - 1

/-- Modelled from the spec: GetBudgetPaymentByBlock returns the scheduled
payment at a block height - the entry at offset (height - start) of the
ordered payment list - when the height falls in the scheduled window. -/
def CFinalizedBudget.GetBudgetPaymentByBlock (fb : CFinalizedBudget)
    (nBlockHeight : Int) : Option CTxBudgetPayment :=
  if nBlockHeight < fb.nBlockStart then none
  else fb.vecBudgetPayments[(nBlockHeight - fb.nBlockStart).toNat]?

/-- Modelled from the spec: the proposal registry is keyed by hash;
GetProposal returns the stored proposal with the given hash, if any. -/
def CBudgetManager.GetProposal (st : CBudgetManager) (nHash : Nat) :
    Option CBudgetProposal :=
  st.mapProposals.find? (fun p => p.nHash == nHash)

/-- Modelled from the spec: FindProposalByName returns a stored proposal
with the given name, if any. -/
def CBudgetManager.FindProposalByName (st : CBudgetManager) (strName : String) :
    Option CBudgetProposal :=
  st.mapProposals.find? (fun p => p.strProposalName == strName)

/-- Modelled from the spec: GetAllProposalsOrdered returns the registry's
proposals as an ordered snapshot. -/
def CBudgetManager.GetAllProposalsOrdered (st : CBudgetManager) :
    List CBudgetProposal :=
  st.mapProposals

/-! ## parseVote (source lines 224-231)

static CBudgetVote::VoteDirection parseVote(const std::string& strVote):
throws unless the string is exactly "yes" or "no"; starts from VOTE_ABSTAIN
and overwrites with VOTE_YES / VOTE_NO. -/

/-- parseVote: the thrown JSONRPCError is modelled as the error branch of
Except, carrying the C++ message. -/
def parseVote (strVote : String) : Except String VoteDirection :=
  if strVote ≠ "yes" ∧ strVote ≠ "no" then
    .error "You can only vote 'yes' or 'no'"
  else
    let nVote := VoteDirection.VOTE_ABSTAIN
    let nVote := if strVote = "yes" then VoteDirection.VOTE_YES else nVote
    let nVote := if strVote = "no" then VoteDirection.VOTE_NO else nVote
    .ok nVote

/-! ## getnextsuperblock (source lines 342-361) and the next-cycle bound -/

/-- The height computation of getnextsuperblock: returns none ("unknown")
when the chain height is negative, otherwise
nChainHeight - nChainHeight % nBlocksPerCycle + nBlocksPerCycle with the
C truncated remainder. -/
def getnextsuperblock (nChainHeight nBlocksPerCycle : Int) : Option Int :=
  if nChainHeight < 0 then none
  else some (nChainHeight - nChainHeight.tmod nBlocksPerCycle + nBlocksPerCycle)

/-- nBlockMin of checkBudgetInputs (source line 85):
pHeight - (pHeight % budgetCycleBlocks) + budgetCycleBlocks. -/
def nBlockMinOf (pHeight budgetCycleBlocks : Int) : Int :=
  pHeight - pHeight.tmod budgetCycleBlocks + budgetCycleBlocks

/-! ## checkBudgetInputs (source lines 55-102) -/

/-- The collaborators checkBudgetInputs calls, modelled from the spec:
SanitizeString and validateURL (string utilities; validateURL yields the
error string on failure), the consensus parameters nMaxProposalPayments and
nBudgetCycleBlocks, GetChainTip (none while warming up), destination
decoding/validation fused into one predicate, and
g_budgetman.GetTotalBudget. -/
structure BudgetRpcCtx where
  SanitizeString : String → String
  validateURL : String → Option String
  nMaxProposalPayments : Int
  chainTip : Option Int
  nBudgetCycleBlocks : Int
  IsValidDestination : String → Bool
  GetTotalBudget : Int → CAmount

/-- The six RPC parameters of preparebudget/submitbudget, already parsed
from JSON: name, url, npayments, start, address, monthly_payment.
nAmount is the result of AmountFromValue, which only yields nonnegative
in-range amounts. -/
structure BudgetDraftParams where
  name : String
  url : String
  nPaymentCount : Int
  nBlockStart : Int
  address : String
  nAmount : CAmount
deriving DecidableEq, Repr

/-- The JSONRPCError throw sites of checkBudgetInputs, one constructor per
throw, carrying the dynamic data of the C++ message. -/
inductive BudgetInputError where
  | nameTooLong
  | invalidURL (strErr : String)
  | paymentCountTooLow
  | paymentCountTooHigh (nMax : Int)
  | inWarmup
  | invalidBlockStart (nBlockMin : Int)
  | invalidAddress
  | amountTooSmall (nAmount : CAmount)
  | amountOverBudget (nAmount nTotal : CAmount)
deriving DecidableEq, Repr

/-- The outputs checkBudgetInputs writes through its reference parameters on
success. -/
structure ParsedBudgetInputs where
  strProposalName : String
  strURL : String
  nPaymentCount : Int
  nBlockStart : Int
  address : String
  nAmount : CAmount
deriving DecidableEq, Repr

/-- checkBudgetInputs: validates the six proposal parameters in source
order: sanitized name length, URL, payment count lower and upper bound,
chain tip presence, block start against nBlockMin and cycle alignment,
destination, amount minimum (10 COIN) and amount against the total budget
of the cycle at the start height. -/
def checkBudgetInputs (ctx : BudgetRpcCtx) (params : BudgetDraftParams) :
    Except BudgetInputError ParsedBudgetInputs :=
  if (ctx.SanitizeString params.name).length > 20 then .error .nameTooLong
  else
    match ctx.validateURL (ctx.SanitizeString params.url) with
    | some strErr => .error (.invalidURL strErr)
    | none =>
      if params.nPaymentCount < 1 then .error .paymentCountTooLow
      else if params.nPaymentCount > ctx.nMaxProposalPayments then
        .error (.paymentCountTooHigh ctx.nMaxProposalPayments)
      else
        match ctx.chainTip with
        | none => .error .inWarmup
        | some pHeight =>
          if params.nBlockStart < nBlockMinOf pHeight ctx.nBudgetCycleBlocks ∨
              params.nBlockStart.tmod ctx.nBudgetCycleBlocks ≠ 0 then
            .error (.invalidBlockStart (nBlockMinOf pHeight ctx.nBudgetCycleBlocks))
          else if ¬ ctx.IsValidDestination params.address then
            .error .invalidAddress
          else if params.nAmount < 10 * COIN then
            .error (.amountTooSmall params.nAmount)
          else if params.nAmount > ctx.GetTotalBudget params.nBlockStart then
            .error (.amountOverBudget params.nAmount (ctx.GetTotalBudget params.nBlockStart))
          else
            .ok ⟨ctx.SanitizeString params.name, ctx.SanitizeString params.url,
                 params.nPaymentCount, params.nBlockStart, params.address,
                 params.nAmount⟩

/-! ## GetFinalizedBudgetStatus (source lines 641-672)

static std::string GetFinalizedBudgetStatus(CFinalizedBudget* fb): loops
nBlockHeight from fb->GetBlockStart() up to and including fb->GetBlockEnd();
skips heights with no scheduled payment; appends the payment's proposal hash
to retBadHashes when the proposal is unknown, or to retBadPayeeOrAmount when
payee or amount differ; returns "OK" when both strings stayed empty. -/

/-- One iteration of the status loop at one block height: the stored
accumulator pair is (retBadHashes, retBadPayeeOrAmount). -/
def statusStep (st : CBudgetManager) (fb : CFinalizedBudget)
    (acc : String × String) (nBlockHeight : Int) : String × String :=
  match fb.GetBudgetPaymentByBlock nBlockHeight with
  | none => acc
  | some budgetPayment =>
    match st.GetProposal budgetPayment.nProposalHash with
    | none =>
      (acc.1 ++ (if acc.1 = "" then "" else ", ") ++
        uint256ToString budgetPayment.nProposalHash, acc.2)
    | some bp =>
      if bp.address ≠ budgetPayment.payee ∨ bp.nAmount ≠ budgetPayment.nAmount then
        (acc.1, acc.2 ++ (if acc.2 = "" then "" else ", ") ++
          uint256ToString budgetPayment.nProposalHash)
      else acc

/-- The heights the status loop visits:
nBlockHeight = GetBlockStart(), ..., GetBlockEnd() inclusive. -/
def loopHeights (fb : CFinalizedBudget) : List Int :=
  (List.range (fb.GetBlockEnd + 1 - fb.GetBlockStart).toNat).map
    (fun i : Nat => fb.GetBlockStart + (i : Int))

/-- The return value built from the two accumulated strings: "OK" when both
are empty, otherwise the prefixed strings joined by " -- ". -/
def statusFormat (acc : String × String) : String :=
  if acc.1 = "" ∧ acc.2 = "" then "OK"
  else
    (if acc.1 ≠ "" then
      "Unknown proposal(s) hash! Check this proposal(s) before voting: " ++ acc.1
     else acc.1) ++ " -- " ++
    (if acc.2 ≠ "" then
      "Budget payee/nAmount doesn't match our proposal(s)! " ++ acc.2
     else acc.2)

/-- GetFinalizedBudgetStatus as a pure function of the registries. -/
def GetFinalizedBudgetStatus (st : CBudgetManager) (fb : CFinalizedBudget) : String :=
  statusFormat ((loopHeights fb).foldl (statusStep st fb) ("", ""))

/-- Whether the status loop records an unknown-proposal entry at a height. -/
def statusBadHashAt (st : CBudgetManager) (fb : CFinalizedBudget) (h : Int) : Bool :=
  match fb.GetBudgetPaymentByBlock h with
  | none => false
  | some bp => (st.GetProposal bp.nProposalHash).isNone

/-- Whether the status loop records a payee/amount mismatch at a height. -/
def statusBadPayeeAt (st : CBudgetManager) (fb : CFinalizedBudget) (h : Int) : Bool :=
  match fb.GetBudgetPaymentByBlock h with
  | none => false
  | some bp =>
    match st.GetProposal bp.nProposalHash with
    | none => false
    | some p => decide (p.address ≠ bp.payee ∨ p.nAmount ≠ bp.nAmount)

/-- GetBudgetPaymentByBlock in state-passing form: the call reads the
finalized budget and returns it unchanged. -/
def GetBudgetPaymentByBlockSt (fb : CFinalizedBudget) (h : Int) :
    Option CTxBudgetPayment × CFinalizedBudget :=
  (fb.GetBudgetPaymentByBlock h, fb)

/-- GetProposal in state-passing form: the call reads the registries and
returns them unchanged. -/
def GetProposalSt (st : CBudgetManager) (nHash : Nat) :
    Option CBudgetProposal × CBudgetManager :=
  (st.GetProposal nHash, st)

/-- One iteration of the status loop in state-passing form, threading the
budget manager and the finalized budget through every call the source
makes. -/
def statusStepSt (acc : (String × String) × CBudgetManager × CFinalizedBudget)
    (nBlockHeight : Int) : (String × String) × CBudgetManager × CFinalizedBudget :=
  match GetBudgetPaymentByBlockSt acc.2.2 nBlockHeight with
  | (none, fb2) => (acc.1, acc.2.1, fb2)
  | (some budgetPayment, fb2) =>
    match GetProposalSt acc.2.1 budgetPayment.nProposalHash with
    | (none, st2) =>
      ((acc.1.1 ++ (if acc.1.1 = "" then "" else ", ") ++
          uint256ToString budgetPayment.nProposalHash, acc.1.2), st2, fb2)
    | (some bp, st2) =>
      if bp.address ≠ budgetPayment.payee ∨ bp.nAmount ≠ budgetPayment.nAmount then
        ((acc.1.1, acc.1.2 ++ (if acc.1.2 = "" then "" else ", ") ++
            uint256ToString budgetPayment.nProposalHash), st2, fb2)
      else (acc.1, st2, fb2)

/-- GetFinalizedBudgetStatus in state-passing form: yields the status
string together with the registries and budget as left behind by the
loop. -/
def GetFinalizedBudgetStatusSt (st : CBudgetManager) (fb : CFinalizedBudget) :
    String × CBudgetManager × CFinalizedBudget :=
  (statusFormat ((loopHeights fb).foldl statusStepSt (("", ""), st, fb)).1,
   ((loopHeights fb).foldl statusStepSt (("", ""), st, fb)).2)

/-- The outcome of submitbudget: a JSONRPCError out of checkBudgetInputs, a
std::runtime_error, or the proposal hash string. -/
inductive SubmitOutcome where
  | rpcError (e : BudgetInputError)
  | runtimeError (msg : String)
  | accepted (hashHex : String)
deriving DecidableEq, Repr

/-- submitbudget (source lines 173-222): runs checkBudgetInputs, requires
the blockchain to be synced, builds the proposal and hands it to
g_budgetman.AddProposal. The fee-transaction hash is taken already parsed;
proposal construction (with its content hash) and AddProposal live outside
this translation unit and are taken as parameters. -/
def submitbudget (ctx : BudgetRpcCtx) (synced : Bool)
    (mkProposal : ParsedBudgetInputs → Nat → CBudgetProposal)
    (addProposal : CBudgetManager → CBudgetProposal → Bool × CBudgetManager)
    (st : CBudgetManager) (params : BudgetDraftParams) (feeTxId : Nat) :
    SubmitOutcome × CBudgetManager :=
  match checkBudgetInputs ctx params with
  | .error e => (.rpcError e, st)
  | .ok parsed =>
    if ¬ synced then
      (.runtimeError
        "Must wait for client to sync with gamemaster network. Try again in a minute or so.",
        st)
    else
      let proposal := mkProposal parsed feeTxId
      match addProposal st proposal with
      | (true, st2) => (.accepted (uint256ToString proposal.nHash), st2)
      | (false, st2) =>
        (.runtimeError ("invalid budget proposal - " ++ proposal.strInvalid), st2)

/-- A concrete RPC context used to instantiate theorems at the spec's
scenario values: identity sanitization, accepting URL validation, maximum
12 payments, chain tip at height 900, cycle length 43200, all destinations
valid, total budget 4320000 COIN. -/
def sampleCtx : BudgetRpcCtx where
  SanitizeString := id
  validateURL := fun _ => none
  nMaxProposalPayments := 12
  chainTip := some 900
  nBudgetCycleBlocks := 43200
  IsValidDestination := fun _ => true
  GetTotalBudget := fun _ => 4320000 * COIN

/-- Concrete proposal parameters with a monthly amount of one COIN:
positive and far below the sample context's total budget, but below the
10 COIN minimum of the code. -/
def smallAmountParams : BudgetDraftParams where
  name := "test-proposal"
  url := "https://forum.hemis.org/t/test-proposal"
  nPaymentCount := 2
  nBlockStart := 43200
  address := "D9oc6C3dttUbv8zd7zGNq1qKBGf4ZQ1XEE"
  nAmount := COIN

/-! ## gmbudgetrawvote (source lines 481-536) -/

/-- A gamemaster as gmbudgetrawvote reads it: only the key id obtained from
pgm->pubKeyGamemaster.GetID() is consumed. -/
structure CGamemaster where
  pubKeyGamemasterId : Nat
deriving DecidableEq, Repr

/-- Modelled from the spec: the collaborators gmbudgetrawvote consumes -
the validator directory (gamemasterman.Find resolves a collateral outpoint
to a gamemaster or absent), the signature service
(vote.CheckSignature(keyid)), and DecodeBase64 (none on malformed
encoding). -/
structure NodeCtx where
  gamemasters : List (COutPoint × CGamemaster)
  checkSignature : CBudgetVote → Nat → Bool
  decodeBase64 : String → Option (List Nat)

/-- Modelled from the spec: gamemasterman.Find looks the outpoint up in the
validator directory. -/
def gamemastermanFind (gms : List (COutPoint × CGamemaster)) (prevout : COutPoint) :
    Option CGamemaster :=
  (gms.find? (fun g => g.1 == prevout)).map (fun g => g.2)

/-- CTxIn::ToString of the collateral input as interpolated into the
not-found message; display only. -/
def CTxInToString (vin : COutPoint) : String :=
  "CTxIn(COutPoint(" ++ uint256ToString vin.hash ++ ", " ++ toString vin.n ++ "))"

/-- Modelled from the spec: ProcessVote of the proposal registry - rejects
a vote whose target proposal hash is unknown; rejects when the same
validator's existing vote has an equal-or-newer timestamp; otherwise
inserts/replaces that validator's vote slot (returning true). -/
def ProcessProposalVote (st : CBudgetManager) (vote : CBudgetVote) :
    Bool × CBudgetManager :=
  match st.mapProposals.find? (fun p => p.nHash == vote.nProposalHash) with
  | none => (false, st)
  | some prop =>
    match prop.mapVotes.find? (fun q => q.1 == vote.vin) with
    | some old =>
      if vote.nTime ≤ old.2.nTime then (false, st)
      else (true, { st with mapProposals := st.mapProposals.map (fun p =>
        if p.nHash == vote.nProposalHash then
          { p with mapVotes :=
              (p.mapVotes.filter (fun q => ¬ (q.1 == vote.vin))) ++ [(vote.vin, vote)] }
        else p) })
    | none =>
      (true, { st with mapProposals := st.mapProposals.map (fun p =>
        if p.nHash == vote.nProposalHash then
          { p with mapVotes := p.mapVotes ++ [(vote.vin, vote)] }
        else p) })

/-- gmbudgetrawvote: after parsing (vote direction, base64 signature), the
vote is built from the collateral outpoint, proposal hash, direction, time
and signature; the gamemaster must be found and the signature must verify
before the vote reaches g_budgetman.ProcessProposalVote. Parse failures
throw (the Except error branch); the later failures return result strings.
The C++ interpolates the reject reason into "Error voting : "; that
interpolation is elided here since the modelled registry reports only
accept/reject. -/
def gmbudgetrawvote (ctx : NodeCtx) (st : CBudgetManager)
    (hashGmTx : Nat) (nGmTxIndex : Int) (hashProposal : Nat)
    (strVoteCast : String) (nTime : Int) (strSig : String) :
    Except String (String × CBudgetManager) :=
  match parseVote strVoteCast with
  | .error e => .error e
  | .ok nVote =>
    match ctx.decodeBase64 strSig with
    | none => .error "Malformed base64 encoding"
    | some vchSig =>
      match gamemastermanFind ctx.gamemasters ⟨hashGmTx, nGmTxIndex⟩ with
      | none =>
        .ok ("Failure to find gamemaster in list : " ++
          CTxInToString ⟨hashGmTx, nGmTxIndex⟩, st)
      | some pgm =>
        if ¬ ctx.checkSignature
            ⟨⟨hashGmTx, nGmTxIndex⟩, hashProposal, nVote, nTime, vchSig⟩
            pgm.pubKeyGamemasterId then
          .ok ("Failure to verify signature.", st)
        else
          match ProcessProposalVote st
              ⟨⟨hashGmTx, nGmTxIndex⟩, hashProposal, nVote, nTime, vchSig⟩ with
          | (true, st2) => .ok ("Voted successfully", st2)
          | (false, st2) => .ok ("Error voting : ", st2)

/-! ## getbudgetinfo (source lines 418-479) -/

/-- The JSON object budgetToJSON builds, restricted to the fields carried
by the proposal model; the vote-tally and establishment fields, whose
producers live outside this translation unit, are elided. -/
structure BObj where
  Name : String
  URL : String
  Hash : Nat
  FeeHash : Nat
  BlockStart : Int
  BlockEnd : Int
  MonthlyPayment : CAmount
  IsValid : Bool
  IsInvalidReason : Option String
deriving DecidableEq, Repr

/-- budgetToJSON (source lines 27-53): renders one proposal; the
IsInvalidReason key is pushed only when the proposal is invalid. -/
def budgetToJSON (p : CBudgetProposal) : BObj where
  Name := p.strProposalName
  URL := p.strURL
  Hash := p.nHash
  FeeHash := p.nFeeTXHash
  BlockStart := p.nBlockStart
  BlockEnd := p.nBlockEnd
  MonthlyPayment := p.nAmount
  IsValid := p.fValid
  IsInvalidReason := if p.fValid then none else some p.strInvalid

/-- getbudgetinfo: with a name parameter, sanitizes it, looks the proposal
up by name - raising "Unknown proposal name" if absent - and returns that
single proposal rendered, with no validity check; with no parameter,
renders every stored proposal but skips each one whose IsValid() is
false. -/
def getbudgetinfo (sanitize : String → String) (st : CBudgetManager)
    (nameParam : Option String) : Except String (List BObj) :=
  match nameParam with
  | some strName =>
    match st.FindProposalByName (sanitize strName) with
    | none => .error "Unknown proposal name"
    | some p => .ok [budgetToJSON p]
  | none =>
    .ok ((st.GetAllProposalsOrdered.filter (fun p => p.fValid)).map budgetToJSON)

/-- Concrete proposal parameters with an excessive payment count of 13
(the sample context's consensus maximum is 12). -/
def thirteenPaymentParams : BudgetDraftParams where
  name := "test-proposal"
  url := "https://forum.hemis.org/t/test-proposal"
  nPaymentCount := 13
  nBlockStart := 43200
  address := "D9oc6C3dttUbv8zd7zGNq1qKBGf4ZQ1XEE"
  nAmount := 500 * COIN

/-- Concrete proposal parameters with start height 1000, which is neither
cycle-aligned nor at/above the next cycle boundary 43200 of the sample
context (current height 900, cycle length 43200). -/
def startMisalignedParams : BudgetDraftParams where
  name := "test-proposal"
  url := "https://forum.hemis.org/t/test-proposal"
  nPaymentCount := 2
  nBlockStart := 1000
  address := "D9oc6C3dttUbv8zd7zGNq1qKBGf4ZQ1XEE"
  nAmount := 500 * COIN

/-- Concrete proposal parameters at the exact 10 COIN minimum amount. -/
def minAmountParams : BudgetDraftParams where
  name := "test-proposal"
  url := "https://forum.hemis.org/t/test-proposal"
  nPaymentCount := 2
  nBlockStart := 43200
  address := "D9oc6C3dttUbv8zd7zGNq1qKBGf4ZQ1XEE"
  nAmount := 10 * COIN

/-- A concrete node context holding one gamemaster (collateral outpoint
(1, 0), key id 7) whose signature service rejects every signature. -/
def rejectSigCtx : NodeCtx where
  gamemasters := [(⟨1, 0⟩, ⟨7⟩)]
  checkSignature := fun _ _ => false
  decodeBase64 := fun _ => some [1, 2, 3]

/-- A budget manager with empty registries. -/
def emptyManager : CBudgetManager where
  mapProposals := []
  mapFinalizedBudgets := []

/-! # Theorems -/

theorem uint256ToString_length (n : Nat) : (uint256ToString n).length = 64 := by
  simp [uint256ToString, String.length]

/-- C truncated remainder is zero exactly on multiples. -/
theorem tmod_eq_zero_iff_dvd (a b : Int) : a.tmod b = 0 ↔ b ∣ a := by
  constructor
  · intro h
    have hd := Int.tdiv_add_tmod a b
    exact ⟨a.tdiv b, by omega⟩
  · exact Int.tmod_eq_zero_of_dvd

/-- For a nonnegative dividend and positive divisor the C truncated
remainder agrees with the mathematical remainder. -/
theorem tmod_eq_emod_of_nonneg (a b : Int) (ha : 0 ≤ a) (hb : 0 < b) :
    a.tmod b = a % b :=
  Int.tmod_eq_emod ha hb.le

/-- C9: parseVote returns VOTE_YES for "yes", VOTE_NO for "no", raises the
JSONRPC error for every other string, and never returns VOTE_ABSTAIN. -/
theorem parseVote_yes_no_never_abstain :
    parseVote "yes" = .ok VoteDirection.VOTE_YES ∧
    parseVote "no" = .ok VoteDirection.VOTE_NO ∧
    (∀ s : String, s ≠ "yes" → s ≠ "no" →
      parseVote s = .error "You can only vote 'yes' or 'no'") ∧
    (∀ s : String, parseVote s ≠ .ok VoteDirection.VOTE_ABSTAIN) := by
  refine ⟨by simp [parseVote], by simp [parseVote], ?_, ?_⟩
  · intro s h1 h2
    simp [parseVote, h1, h2]
  · intro s
    by_cases h1 : s = "yes"
    · simp [parseVote, h1]
    · by_cases h2 : s = "no"
      · simp [parseVote, h1, h2]
      · simp [parseVote, h1, h2]

/-- C2: on a nonnegative chain height and positive cycle length, both
getnextsuperblock and checkBudgetInputs's nBlockMin compute
h - (h mod c) + c, which is a multiple of c, is strictly greater than h,
and is the smallest multiple of c strictly greater than h - (h mod c). -/
theorem next_superblock_strictly_after (h c : Int) (hh : 0 ≤ h) (hc : 0 < c) :
    getnextsuperblock h c = some (h - h % c + c) ∧
    nBlockMinOf h c = h - h % c + c ∧
    c ∣ (h - h % c + c) ∧
    h < h - h % c + c ∧
    (∀ m : Int, c ∣ m → h - h % c < m → h - h % c + c ≤ m) := by
  have ht : h.tmod c = h % c := tmod_eq_emod_of_nonneg h c hh hc
  have hlt : h % c < c := Int.emod_lt_of_pos h hc
  have hdefn : h % c = h - c * (h / c) := Int.emod_def h c
  have hq : h - h % c = c * (h / c) := by rw [hdefn]; ring
  refine ⟨?_, ?_, ?_, ?_, ?_⟩
  · simp [getnextsuperblock, ht, not_lt.mpr hh]
  · simp [nBlockMinOf, ht]
  · exact ⟨h / c + 1, by rw [hq]; ring⟩
  · linarith
  · intro m hdvd hgt
    rcases hdvd with ⟨k, rfl⟩
    rw [hq] at hgt ⊢
    have h2 : h / c < k := lt_of_mul_lt_mul_left hgt hc.le
    calc c * (h / c) + c = c * (h / c + 1) := by ring
      _ ≤ c * k := mul_le_mul_of_nonneg_left (by omega) hc.le

/-- C2 witness: at chain height 43200 with cycle length 43200 (a height that
is itself a cycle boundary) the next superblock is 86400, strictly above
the current height. -/
theorem next_superblock_strictly_after_witness :
    getnextsuperblock 43200 43200 = some 86400 ∧
    (43200 : Int) < 43200 - 43200 % 43200 + 43200 := by
  have hth := next_superblock_strictly_after 43200 43200 (by norm_num) (by norm_num)
  refine ⟨?_, hth.2.2.2.1⟩
  rw [hth.1]
  norm_num

/-- C8: checkBudgetInputs rejects with the name-length error exactly when
the sanitized proposal name is longer than 20 characters, and submitbudget
then surfaces that error with the engine state unchanged (for every
sanitization, sync flag, proposal constructor and AddProposal behaviour). -/
theorem proposal_name_length_check (ctx : BudgetRpcCtx) (params : BudgetDraftParams)
    (synced : Bool) (mk : ParsedBudgetInputs → Nat → CBudgetProposal)
    (addP : CBudgetManager → CBudgetProposal → Bool × CBudgetManager)
    (st : CBudgetManager) (feeTxId : Nat) :
    (checkBudgetInputs ctx params = .error .nameTooLong ↔
      20 < (ctx.SanitizeString params.name).length) ∧
    (20 < (ctx.SanitizeString params.name).length →
      submitbudget ctx synced mk addP st params feeTxId =
        (.rpcError .nameTooLong, st)) := by
  have hiff : checkBudgetInputs ctx params = .error .nameTooLong ↔
      20 < (ctx.SanitizeString params.name).length := by
    unfold checkBudgetInputs
    repeat' split
    all_goals simp_all
  refine ⟨hiff, fun hl => ?_⟩
  simp [submitbudget, hiff.mpr hl]

/-- C5: once the name and URL checks pass, checkBudgetInputs rejects a
payment count below 1 with the too-low error, rejects one above the
consensus maximum with the too-high error, and never raises a
payment-count error for a count within bounds. -/
theorem payment_count_bounds (ctx : BudgetRpcCtx) (params : BudgetDraftParams)
    (hname : (ctx.SanitizeString params.name).length ≤ 20)
    (hurl : ctx.validateURL (ctx.SanitizeString params.url) = none) :
    (params.nPaymentCount < 1 →
      checkBudgetInputs ctx params = .error .paymentCountTooLow) ∧
    (1 ≤ params.nPaymentCount → ctx.nMaxProposalPayments < params.nPaymentCount →
      checkBudgetInputs ctx params =
        .error (.paymentCountTooHigh ctx.nMaxProposalPayments)) ∧
    (1 ≤ params.nPaymentCount → params.nPaymentCount ≤ ctx.nMaxProposalPayments →
      checkBudgetInputs ctx params ≠ .error .paymentCountTooLow ∧
      ∀ m : Int, checkBudgetInputs ctx params ≠ .error (.paymentCountTooHigh m)) := by
  refine ⟨?_, ?_, ?_⟩
  · intro hlow
    unfold checkBudgetInputs
    repeat' split
    all_goals simp_all
    all_goals omega
  · intro h1 h2
    unfold checkBudgetInputs
    repeat' split
    all_goals simp_all
    all_goals omega
  · intro h1 h2
    constructor
    · unfold checkBudgetInputs
      repeat' split
      all_goals simp_all
      all_goals omega
    · intro m
      unfold checkBudgetInputs
      repeat' split
      all_goals simp_all
      all_goals omega

/-- C5 witness: a proposal with paymentCount 13 under the sample context's
maximum of 12 is rejected with the payment-count reason. -/
theorem payment_count_bounds_witness :
    checkBudgetInputs sampleCtx thirteenPaymentParams =
      .error (.paymentCountTooHigh 12) :=
  (payment_count_bounds sampleCtx thirteenPaymentParams (by decide) rfl).2.1
    (by norm_num [thirteenPaymentParams]) (by norm_num [sampleCtx, thirteenPaymentParams])

/-- C3: once the earlier checks pass, on a chain tip at nonnegative height
with a positive cycle length, checkBudgetInputs rejects the requested start
height with the block-start error (carrying the next cycle boundary
height - height mod cycle + cycle) exactly when that start is below the
next cycle boundary or is not a multiple of the cycle length. -/
theorem block_start_cycle_alignment (ctx : BudgetRpcCtx) (params : BudgetDraftParams)
    (hname : (ctx.SanitizeString params.name).length ≤ 20)
    (hurl : ctx.validateURL (ctx.SanitizeString params.url) = none)
    (hc1 : 1 ≤ params.nPaymentCount)
    (hc2 : params.nPaymentCount ≤ ctx.nMaxProposalPayments)
    (pHeight : Int) (htip : ctx.chainTip = some pHeight)
    (hH : 0 ≤ pHeight) (hcyc : 0 < ctx.nBudgetCycleBlocks) :
    checkBudgetInputs ctx params =
        .error (.invalidBlockStart
          (pHeight - pHeight % ctx.nBudgetCycleBlocks + ctx.nBudgetCycleBlocks)) ↔
      (params.nBlockStart <
          pHeight - pHeight % ctx.nBudgetCycleBlocks + ctx.nBudgetCycleBlocks ∨
        ¬ ctx.nBudgetCycleBlocks ∣ params.nBlockStart) := by
  have hmin : nBlockMinOf pHeight ctx.nBudgetCycleBlocks =
      pHeight - pHeight % ctx.nBudgetCycleBlocks + ctx.nBudgetCycleBlocks := by
    simp [nBlockMinOf, tmod_eq_emod_of_nonneg pHeight _ hH hcyc]
  have hdvd := tmod_eq_zero_iff_dvd params.nBlockStart ctx.nBudgetCycleBlocks
  unfold checkBudgetInputs
  repeat' split
  all_goals simp_all
  all_goals omega

/-- C3 witness: with cycle length 43200 and current height 900, a proposal
with start height 1000 is rejected, the reported next valid block being
43200. -/
theorem block_start_cycle_alignment_witness :
    checkBudgetInputs sampleCtx startMisalignedParams =
      .error (.invalidBlockStart 43200) := by
  have h := (block_start_cycle_alignment sampleCtx startMisalignedParams
      (by decide) rfl (by norm_num [startMisalignedParams])
      (by norm_num [sampleCtx, startMisalignedParams]) 900 rfl (by norm_num)
      (by norm_num [sampleCtx])).mpr
    (Or.inl (by norm_num [sampleCtx, startMisalignedParams]))
  norm_num [sampleCtx] at h
  exact h

/-- C4 counterexample: a monthly amount of one COIN is greater than zero
and at most the cycle's total budget, yet checkBudgetInputs rejects it on
amount grounds (the code's minimum is 10 COIN, not zero). -/
theorem amount_above_zero_claim_counterexample :
    (0 < COIN ∧ COIN ≤ sampleCtx.GetTotalBudget smallAmountParams.nBlockStart) ∧
    checkBudgetInputs sampleCtx smallAmountParams =
      .error (.amountTooSmall COIN) := by
  constructor
  · constructor <;> norm_num [COIN, sampleCtx]
  · rfl

/-- C4 as amended: once every earlier check passes, checkBudgetInputs
rejects an amount below 10 COIN with the below-minimum error, rejects an
amount above the cycle's total budget (GetTotalBudget at the start height)
with the over-budget error, and accepts any amount within those bounds. -/
theorem amount_bounds_ten_coin_minimum (ctx : BudgetRpcCtx) (params : BudgetDraftParams)
    (hname : (ctx.SanitizeString params.name).length ≤ 20)
    (hurl : ctx.validateURL (ctx.SanitizeString params.url) = none)
    (hc1 : 1 ≤ params.nPaymentCount)
    (hc2 : params.nPaymentCount ≤ ctx.nMaxProposalPayments)
    (pHeight : Int) (htip : ctx.chainTip = some pHeight)
    (hbs1 : nBlockMinOf pHeight ctx.nBudgetCycleBlocks ≤ params.nBlockStart)
    (hbs2 : params.nBlockStart.tmod ctx.nBudgetCycleBlocks = 0)
    (haddr : ctx.IsValidDestination params.address = true) :
    (checkBudgetInputs ctx params = .error (.amountTooSmall params.nAmount) ↔
      params.nAmount < 10 * COIN) ∧
    (checkBudgetInputs ctx params =
        .error (.amountOverBudget params.nAmount (ctx.GetTotalBudget params.nBlockStart)) ↔
      (10 * COIN ≤ params.nAmount ∧
        ctx.GetTotalBudget params.nBlockStart < params.nAmount)) ∧
    (10 * COIN ≤ params.nAmount →
      params.nAmount ≤ ctx.GetTotalBudget params.nBlockStart →
      checkBudgetInputs ctx params =
        .ok ⟨ctx.SanitizeString params.name, ctx.SanitizeString params.url,
             params.nPaymentCount, params.nBlockStart, params.address,
             params.nAmount⟩) := by
  refine ⟨?_, ?_, ?_⟩ <;>
    · unfold checkBudgetInputs
      repeat' split
      all_goals simp_all
      all_goals omega

/-- C4 witness: a proposal asking exactly the 10 COIN minimum within the
sample context's total budget is accepted. -/
theorem amount_bounds_ten_coin_minimum_witness :
    checkBudgetInputs sampleCtx minAmountParams =
      .ok ⟨"test-proposal", "https://forum.hemis.org/t/test-proposal",
           2, 43200, "D9oc6C3dttUbv8zd7zGNq1qKBGf4ZQ1XEE", 10 * COIN⟩ :=
  (amount_bounds_ten_coin_minimum sampleCtx minAmountParams (by decide) rfl
      (by norm_num [minAmountParams]) (by norm_num [sampleCtx, minAmountParams])
      900 rfl (by decide) (by decide) rfl).2.2
    (by norm_num [minAmountParams]) (by norm_num [sampleCtx, minAmountParams, COIN])

/-- A string of the shape x ++ " -- " ++ y is never "OK". -/
theorem append_dashes_ne_ok (x y : String) : x ++ " -- " ++ y ≠ "OK" := by
  intro hcontra
  have hlen := congrArg String.length hcontra
  rw [String.length_append, String.length_append] at hlen
  have h4 : (" -- " : String).length = 4 := by decide
  have h2 : ("OK" : String).length = 2 := by decide
  rw [h4, h2] at hlen
  omega

/-- Appending a 64-character hash rendering leaves a nonempty string. -/
theorem append_uint256_ne_empty (a s : String) (n : Nat) :
    a ++ s ++ uint256ToString n ≠ "" := by
  intro hcontra
  have hlen := congrArg String.length hcontra
  rw [String.length_append, String.length_append, uint256ToString_length] at hlen
  simp at hlen

/-- One status-loop step leaves retBadHashes empty exactly when it came in
empty and the height records no unknown proposal. -/
theorem statusStep_fst_empty (st : CBudgetManager) (fb : CFinalizedBudget)
    (a b : String) (h : Int) :
    ((statusStep st fb (a, b) h).1 = "" ↔
      a = "" ∧ statusBadHashAt st fb h = false) := by
  unfold statusStep statusBadHashAt
  rcases hbp : fb.GetBudgetPaymentByBlock h with _ | bp <;> simp only [hbp]
  · simp
  · rcases hp : st.GetProposal bp.nProposalHash with _ | p <;> simp only [hp]
    · simpa using append_uint256_ne_empty a (if a = "" then "" else ", ") bp.nProposalHash
    · split_ifs <;> simp

/-- One status-loop step leaves retBadPayeeOrAmount empty exactly when it
came in empty and the height records no payee/amount mismatch. -/
theorem statusStep_snd_empty (st : CBudgetManager) (fb : CFinalizedBudget)
    (a b : String) (h : Int) :
    ((statusStep st fb (a, b) h).2 = "" ↔
      b = "" ∧ statusBadPayeeAt st fb h = false) := by
  unfold statusStep statusBadPayeeAt
  rcases hbp : fb.GetBudgetPaymentByBlock h with _ | bp <;> simp only [hbp]
  · simp
  · rcases hp : st.GetProposal bp.nProposalHash with _ | p <;> simp only [hp]
    · simp
    · by_cases hmm : p.address ≠ bp.payee ∨ p.nAmount ≠ bp.nAmount
      · rw [if_pos hmm]
        refine iff_of_false ?_ (by simp [hmm])
        exact append_uint256_ne_empty b (if b = "" then "" else ", ") bp.nProposalHash
      · rw [if_neg hmm]
        simp [hmm]

/-- The folded status loop leaves an accumulator component empty exactly
when it started empty and no visited height contributes to it. -/
theorem statusFold_empty (st : CBudgetManager) (fb : CFinalizedBudget)
    (hs : List Int) (a b : String) :
    ((hs.foldl (statusStep st fb) (a, b)).1 = "" ↔
      a = "" ∧ ∀ h ∈ hs, statusBadHashAt st fb h = false) ∧
    ((hs.foldl (statusStep st fb) (a, b)).2 = "" ↔
      b = "" ∧ ∀ h ∈ hs, statusBadPayeeAt st fb h = false) := by
  induction hs generalizing a b with
  | nil => simp
  | cons h t ih =>
    rcases hstep : statusStep st fb (a, b) h with ⟨a2, b2⟩
    have h1 : a2 = "" ↔ a = "" ∧ statusBadHashAt st fb h = false := by
      have := statusStep_fst_empty st fb a b h
      rwa [hstep] at this
    have h2 : b2 = "" ↔ b = "" ∧ statusBadPayeeAt st fb h = false := by
      have := statusStep_snd_empty st fb a b h
      rwa [hstep] at this
    simp only [List.foldl_cons, hstep]
    constructor
    · rw [(ih a2 b2).1, h1]
      simp only [List.forall_mem_cons]
      tauto
    · rw [(ih a2 b2).2, h2]
      simp only [List.forall_mem_cons]
      tauto

/-- The status loop visits exactly the heights of the half-open window
[start, start + number of payments). -/
theorem mem_loopHeights (fb : CFinalizedBudget) (h : Int) :
    h ∈ loopHeights fb ↔
      fb.nBlockStart ≤ h ∧ h < fb.nBlockStart + fb.vecBudgetPayments.length := by
  unfold loopHeights CFinalizedBudget.GetBlockStart CFinalizedBudget.GetBlockEnd
  constructor
  · intro hmem
    obtain ⟨i, hi, hEq⟩ := List.mem_map.mp hmem
    rw [List.mem_range] at hi
    subst hEq
    exact ⟨by omega, by omega⟩
  · rintro ⟨hlo, hhi⟩
    refine List.mem_map.mpr ⟨(h - fb.nBlockStart).toNat, List.mem_range.mpr ?_, ?_⟩
    · omega
    · omega

/-- A height contributes to neither accumulator exactly when every payment
scheduled there references a known proposal matching in payee and amount. -/
theorem bad_flags_false_iff (st : CBudgetManager) (fb : CFinalizedBudget) (h : Int) :
    (statusBadHashAt st fb h = false ∧ statusBadPayeeAt st fb h = false) ↔
    (∀ bp, fb.GetBudgetPaymentByBlock h = some bp →
      ∃ p, st.GetProposal bp.nProposalHash = some p ∧
        p.address = bp.payee ∧ p.nAmount = bp.nAmount) := by
  unfold statusBadHashAt statusBadPayeeAt
  rcases hbp : fb.GetBudgetPaymentByBlock h with _ | bp <;> simp only [hbp]
  · simp
  · rcases hp : st.GetProposal bp.nProposalHash with _ | p <;> simp only [hp]
    · refine iff_of_false (by simp) ?_
      intro hall
      obtain ⟨p', hp', -⟩ := hall bp rfl
      rw [hp] at hp'
      exact Option.noConfusion hp'
    · simp only [Option.isNone_some]
      constructor
      · rintro ⟨-, hflag⟩ bp' hbp'
        obtain rfl := Option.some.inj hbp'
        have hnot := of_decide_eq_false hflag
        push_neg at hnot
        exact ⟨p, hp, hnot⟩
      · intro hall
        obtain ⟨p', hp', h1, h2⟩ := hall bp rfl
        rw [hp] at hp'
        obtain rfl := Option.some.inj hp'
        refine ⟨trivial, decide_eq_false ?_⟩
        push_neg
        exact ⟨h1, h2⟩

/-- C1: GetFinalizedBudgetStatus inspects exactly the heights of
[start, start + number of payments) - the spec's [start, end) - and returns
"OK" if and only if every scheduled payment in that window references a
known proposal whose payee and amount both match; any unknown reference or
mismatch yields a non-"OK" report. -/
theorem finalized_budget_status_ok_iff (st : CBudgetManager) (fb : CFinalizedBudget) :
    GetFinalizedBudgetStatus st fb = "OK" ↔
      ∀ h : Int, fb.nBlockStart ≤ h →
        h < fb.nBlockStart + fb.vecBudgetPayments.length →
        ∀ bp, fb.GetBudgetPaymentByBlock h = some bp →
          ∃ p, st.GetProposal bp.nProposalHash = some p ∧
            p.address = bp.payee ∧ p.nAmount = bp.nAmount := by
  have hok : GetFinalizedBudgetStatus st fb = "OK" ↔
      ((loopHeights fb).foldl (statusStep st fb) ("", "")).1 = "" ∧
      ((loopHeights fb).foldl (statusStep st fb) ("", "")).2 = "" := by
    unfold GetFinalizedBudgetStatus statusFormat
    split_ifs with hcond
    · simp [hcond]
    all_goals exact iff_of_false (append_dashes_ne_ok _ _) hcond
  rw [hok, (statusFold_empty st fb (loopHeights fb) "" "").1,
    (statusFold_empty st fb (loopHeights fb) "" "").2]
  constructor
  · rintro ⟨⟨-, h1⟩, -, h2⟩ h lo hi bp hbp
    have hmem : h ∈ loopHeights fb := (mem_loopHeights fb h).mpr ⟨lo, hi⟩
    exact (bad_flags_false_iff st fb h).mp ⟨h1 h hmem, h2 h hmem⟩ bp hbp
  · intro hall
    refine ⟨⟨rfl, fun h hmem => ?_⟩, rfl, fun h hmem => ?_⟩
    · have hrange := (mem_loopHeights fb h).mp hmem
      exact ((bad_flags_false_iff st fb h).mpr (hall h hrange.1 hrange.2)).1
    · have hrange := (mem_loopHeights fb h).mp hmem
      exact ((bad_flags_false_iff st fb h).mpr (hall h hrange.1 hrange.2)).2

/-- One state-passing status step returns the same registries and budget it
was given, computing the same accumulator as the pure step. -/
theorem statusStepSt_eq (acc : String × String) (st : CBudgetManager)
    (fb : CFinalizedBudget) (h : Int) :
    statusStepSt (acc, st, fb) h = (statusStep st fb acc h, st, fb) := by
  unfold statusStepSt statusStep GetBudgetPaymentByBlockSt GetProposalSt
  rcases hbp : fb.GetBudgetPaymentByBlock h with _ | bp <;> simp only [hbp]
  all_goals rcases hp : st.GetProposal bp.nProposalHash with _ | p <;> simp only [hp]
  all_goals split_ifs <;> rfl

/-- The whole state-passing status loop returns the registries and budget
unchanged. -/
theorem statusFoldSt_eq (st : CBudgetManager) (fb : CFinalizedBudget)
    (hs : List Int) (acc : String × String) :
    hs.foldl statusStepSt (acc, st, fb) =
      (hs.foldl (statusStep st fb) acc, st, fb) := by
  induction hs generalizing acc with
  | nil => rfl
  | cons h t ih =>
    simp only [List.foldl_cons, statusStepSt_eq]
    exact ih _

/-- C6: computing a finalized budget's status mutates nothing: the
state-passing embedding returns the registries and the budget (with its
payments and votes) exactly as given, its string agrees with the pure
status function, and every stored finalized budget - mismatching or not -
and every stored proposal remains stored afterwards. -/
theorem finalized_budget_status_no_mutation (st : CBudgetManager) (fb : CFinalizedBudget) :
    GetFinalizedBudgetStatusSt st fb = (GetFinalizedBudgetStatus st fb, st, fb) ∧
    (fb ∈ st.mapFinalizedBudgets →
      fb ∈ (GetFinalizedBudgetStatusSt st fb).2.1.mapFinalizedBudgets) ∧
    (∀ p ∈ st.mapProposals, p ∈ (GetFinalizedBudgetStatusSt st fb).2.1.mapProposals) := by
  have hmain : GetFinalizedBudgetStatusSt st fb = (GetFinalizedBudgetStatus st fb, st, fb) := by
    unfold GetFinalizedBudgetStatusSt GetFinalizedBudgetStatus
    rw [statusFoldSt_eq]
  refine ⟨hmain, ?_, ?_⟩
  · intro hmem
    rw [hmain]
    exact hmem
  · intro p hp
    rw [hmain]
    exact hp

/-- C7: once the vote direction parses and the signature decodes,
gmbudgetrawvote returns the not-found failure with the engine state
untouched when the collateral outpoint resolves to no gamemaster; returns
the signature failure with the engine state untouched when the gamemaster
is found but the signature does not verify against its key; and hands the
vote to ProcessProposalVote exactly when both checks pass. -/
theorem rawvote_requires_gm_and_signature (ctx : NodeCtx) (st : CBudgetManager)
    (hashGmTx : Nat) (nGmTxIndex : Int) (hashProposal : Nat)
    (strVoteCast : String) (nTime : Int) (strSig : String)
    (nVote : VoteDirection) (hparse : parseVote strVoteCast = .ok nVote)
    (vchSig : List Nat) (hdecode : ctx.decodeBase64 strSig = some vchSig) :
    (gamemastermanFind ctx.gamemasters ⟨hashGmTx, nGmTxIndex⟩ = none →
      gmbudgetrawvote ctx st hashGmTx nGmTxIndex hashProposal strVoteCast nTime strSig =
        .ok ("Failure to find gamemaster in list : " ++
          CTxInToString ⟨hashGmTx, nGmTxIndex⟩, st)) ∧
    (∀ pgm, gamemastermanFind ctx.gamemasters ⟨hashGmTx, nGmTxIndex⟩ = some pgm →
      ctx.checkSignature ⟨⟨hashGmTx, nGmTxIndex⟩, hashProposal, nVote, nTime, vchSig⟩
          pgm.pubKeyGamemasterId = false →
      gmbudgetrawvote ctx st hashGmTx nGmTxIndex hashProposal strVoteCast nTime strSig =
        .ok ("Failure to verify signature.", st)) ∧
    (∀ pgm, gamemastermanFind ctx.gamemasters ⟨hashGmTx, nGmTxIndex⟩ = some pgm →
      ctx.checkSignature ⟨⟨hashGmTx, nGmTxIndex⟩, hashProposal, nVote, nTime, vchSig⟩
          pgm.pubKeyGamemasterId = true →
      gmbudgetrawvote ctx st hashGmTx nGmTxIndex hashProposal strVoteCast nTime strSig =
        .ok ((if (ProcessProposalVote st
              ⟨⟨hashGmTx, nGmTxIndex⟩, hashProposal, nVote, nTime, vchSig⟩).1 then
            "Voted successfully"
          else "Error voting : "),
          (ProcessProposalVote st
            ⟨⟨hashGmTx, nGmTxIndex⟩, hashProposal, nVote, nTime, vchSig⟩).2)) := by
  refine ⟨?_, ?_, ?_⟩
  · intro hfind
    unfold gmbudgetrawvote
    simp only [hparse, hdecode, hfind]
  · intro pgm hfind hsig
    unfold gmbudgetrawvote
    simp only [hparse, hdecode, hfind, hsig]
    simp
  · intro pgm hfind hsig
    unfold gmbudgetrawvote
    simp only [hparse, hdecode, hfind, hsig]
    rcases hpv : ProcessProposalVote st
        ⟨⟨hashGmTx, nGmTxIndex⟩, hashProposal, nVote, nTime, vchSig⟩ with ⟨ok, st2⟩
    cases ok <;> simp [hpv]

/-- C7 witness: with the all-rejecting signature service, a raw "yes" vote
for the gamemaster at outpoint (1, 0) comes back as a signature failure
and the registries stay empty. -/
theorem rawvote_requires_gm_and_signature_witness :
    gmbudgetrawvote rejectSigCtx emptyManager 1 0 5 "yes" 100 "c2ln" =
      .ok ("Failure to verify signature.", emptyManager) :=
  (rawvote_requires_gm_and_signature rejectSigCtx emptyManager 1 0 5 "yes" 100 "c2ln"
    VoteDirection.VOTE_YES rfl [1, 2, 3] rfl).2.1 ⟨7⟩ rfl rfl

/-- C10: getbudgetinfo with no name returns exactly the renderings of the
stored proposals whose IsValid() flag holds, skipping every invalid one;
with a name it returns the rendering of the proposal of that (sanitized)
name whatever its validity, and raises "Unknown proposal name" exactly
when no proposal has that name. -/
theorem getbudgetinfo_filters_invalid (sanitize : String → String) (st : CBudgetManager) :
    (∃ l, getbudgetinfo sanitize st none = .ok l ∧
      ∀ b, b ∈ l ↔ ∃ p, p ∈ st.GetAllProposalsOrdered ∧ p.fValid = true ∧
        budgetToJSON p = b) ∧
    (∀ strName p, st.FindProposalByName (sanitize strName) = some p →
      getbudgetinfo sanitize st (some strName) = .ok [budgetToJSON p]) ∧
    (∀ strName, st.FindProposalByName (sanitize strName) = none →
      getbudgetinfo sanitize st (some strName) = .error "Unknown proposal name") := by
  refine ⟨⟨_, rfl, ?_⟩, ?_, ?_⟩
  · intro b
    simp only [List.mem_map, List.mem_filter]
    constructor
    · rintro ⟨p, ⟨hmem, hval⟩, rfl⟩
      exact ⟨p, hmem, hval, rfl⟩
    · rintro ⟨p, hmem, hval, rfl⟩
      exact ⟨p, ⟨hmem, hval⟩, rfl⟩
  · intro strName p hfind
    unfold getbudgetinfo
    simp only [hfind]
  · intro strName hfind
    unfold getbudgetinfo
    simp only [hfind]

end HemisBudget
